import Mathlib

/-!
# Chat-bot controllers: EmtecController and BroadcastController

A shallow embedding of the two Go controllers

* `internal/slackbot/controller/emtec.go`  (`EmtecController`)
* `seaman/controller/broadcast.go`         (`BroadcastController`)

Every handler is a function from its inputs and an environment (the outcome of
each external call) to the ordered list of effects the Go code performs.
-/

namespace Chatbot

/-! ## Go standard library pieces used by the handlers -/

/-- Go `unicode.IsSpace`: the Latin-1 spaces and the Unicode White_Space code points. -/
def isSpace (c : Char) : Bool :=
  let n := c.toNat
  n == 0x09 || n == 0x0A || n == 0x0B || n == 0x0C || n == 0x0D || n == 0x20 ||
  n == 0x85 || n == 0xA0 || n == 0x1680 || (0x2000 ≤ n && n ≤ 0x200A) ||
  n == 0x2028 || n == 0x2029 || n == 0x202F || n == 0x205F || n == 0x3000

/-- Scanner behind `Fields`: `cur` is the field being read, most recent character first. -/
def fieldsFrom (cur : List Char) : List Char → List String
  | [] => if cur = [] then [] else [String.mk cur.reverse]
  | c :: cs =>
    if isSpace c then
      if cur = [] then fieldsFrom [] cs else String.mk cur.reverse :: fieldsFrom [] cs
    else fieldsFrom (c :: cur) cs

/-- Go `strings.Fields`: the maximal runs of non-space characters, in order. -/
def Fields (s : String) : List String := fieldsFrom [] s.toList

/-- One step of the digit loop of `strconv.Atoi`: `ch -= 48; if ch > 9 then fail`. -/
def digitVal (c : Char) : Option Nat :=
  if c.toNat < 48 ∨ c.toNat - 48 > 9 then none else some (c.toNat - 48)

/-- The digit loop of `strconv.Atoi`: `n = n*10 + ch`, failing on a non-digit. -/
def parseDigits : List Char → Nat → Option Nat
  | [], acc => some acc
  | c :: cs, acc =>
    match digitVal c with
    | none => none
    | some d => parseDigits cs (acc * 10 + d)

/-- Go `strconv.Atoi` for a 64-bit `int`. `none` stands for a non-nil error of either kind
(`ErrSyntax`, `ErrRange`); the handlers only test `err != nil`. -/
def Atoi (s : String) : Option Int :=
  match s.toList with
  | [] => none
  | c :: cs =>
    let body := if c = '-' ∨ c = '+' then cs else c :: cs
    if body = [] then none
    else
      match parseDigits body 0 with
      | none => none
      | some un =>
        if c = '-' then
          if un > 2 ^ 63 then none else some (-(un : Int))
        else
          if un ≥ 2 ^ 63 then none else some (un : Int)

/-- Go conversion `int32(x)`: keep the low 32 bits, read as two's complement. -/
def toInt32 (x : Int) : Int := (x + 2 ^ 31) % 2 ^ 32 - 2 ^ 31

/-- Range of a signed 32-bit integer. -/
def InInt32 (n : Int) : Prop := -(2 ^ 31) ≤ n ∧ n ≤ 2 ^ 31 - 1

instance (n : Int) : Decidable (InInt32 n) := by unfold InInt32; infer_instance

/-- The words of the specification, independent of `Atoi`: `s` is a base-10 integer literal
denoting `n`, that is an optional sign followed by one or more ASCII digits. -/
def DecimalLiteral (s : String) (n : Int) : Prop :=
  ∃ (sign body : List Char),
    (sign = [] ∨ sign = ['+'] ∨ sign = ['-']) ∧ body ≠ [] ∧
    (∀ c ∈ body, 48 ≤ c.toNat ∧ c.toNat ≤ 57) ∧
    s.toList = sign ++ body ∧
    n = (if sign = ['-'] then -1 else 1) *
          ((Nat.ofDigits 10 (body.reverse.map (fun c => c.toNat - 48)) : Nat) : Int)

/-! ## Data model -/

/-- Rendering of a Go `error` (what `%v` prints). -/
abbrev Err := String

/-- Fields of `slackevents.AppMentionEvent` read by the handlers. -/
structure AppMentionEvent where
  Channel : String
  TimeStamp : String
  Text : String
  deriving Repr, DecidableEq

/-- Result of `api.NewTrack`, also an entry of `ListTrackResponse.Tracks`. -/
structure Track where
  Id : Int
  Name : String
  deriving Repr, DecidableEq

/-- Fields of `slack.InteractionCallback` read by `UpdateSceneToNext`; `Msg` is `slack.Msg`. -/
structure InteractionCallback (Msg : Type) where
  ChannelID : String
  MessageTs : String
  UserID : String
  Message : Msg
  ActionValues : List String

/-- Fields of `socketmode.Event` read by the broadcast handlers. -/
structure SocketEvent where
  Request : String
  Data : String
  deriving Repr, DecidableEq

/-- Package `internal/slackbot/view`, whose source is not part of the excerpt: its functions
are parameters of the model. `Text` builds `slack.Msg` with only its `Text` field set. -/
structure View (Msg : Type) where
  SomethingIsWrong : String → Msg
  InvalidArguments : String → String → Msg
  EmtecListTrack : List Track → Msg
  EmtecEnabled : String → Msg
  EmtecDisabled : String → Msg
  EmtecMovedToNextScene : Msg → Except Err Msg
  Text : String → Msg

/-- Package `seaman/view`, whose source is not part of the excerpt. -/
structure BroadcastView (Msg : Type) where
  SomethingIsWrong : String → Msg
  InvalidArguments : String → String → Msg
  BroadcastListTrack : List Track → Msg
  BroadcastEnabled : String → Msg
  BroadcastDisabled : String → Msg

/-- A Slack client `sc`: the error returned by each transport call. The first argument is the
number of transport calls made earlier in the same run, so a retry may answer differently
from the call it follows. -/
structure SlackClient (Msg : Type) where
  PostMessage : Nat → String → Msg → Option Err
  UpdateMessage : Nat → String → String → Msg → Option Err
  PostMessageToThread : Nat → String → String → Msg → Option Err

/-- Everything outside the controller: the Slack client factory, the remote production-control
service and the helpers of the repository whose source is not part of the excerpt
(`getAppMentionEvent`, `getCallbackValueOnButton`, `api.NewTrack`). On failure the factory
yields an error and no client. -/
structure Env (Msg : Type) where
  slackFactoryNew : Except Err (SlackClient Msg)
  ListTrack : Except Err (List Track)
  EnableAutomation : Int → Except Err String
  DisableAutomation : Int → Except Err String
  MoveSceneToNext : Int → Option Err
  getAppMentionEvent : SocketEvent → Except Err AppMentionEvent
  getCallbackValueOnButton : InteractionCallback Msg → String
  NewTrack : String → Except Err Track

/-- What a handler does to the outside world, in program order. Transport calls record the
error they returned. `NilClient` is a method call through the missing Slack client, which ends
the run. -/
inductive Effect (Msg : Type) where
  | Ack (request : String)
  | LogError (text : String)
  | LogInfo (text : String)
  | LogrError (err : Err) (text : String)
  | SlackNew
  | PostMessage (channel : String) (msg : Msg) (err : Option Err)
  | UpdateMessage (channel ts : String) (msg : Msg) (err : Option Err)
  | PostMessageToThread (channel ts : String) (msg : Msg) (err : Option Err)
  | ListTrack
  | EnableAutomation (trackId : Int)
  | DisableAutomation (trackId : Int)
  | MoveSceneToNext (trackId : Int)
  | NilClient
  deriving DecidableEq

/-- A method call on `sc`. When the factory failed there is no client and the call ends the
run. -/
def viaClient {Msg : Type} (sc : Option (SlackClient Msg))
    (k : SlackClient Msg → List (Effect Msg)) : List (Effect Msg) :=
  match sc with
  | none => [Effect.NilClient]
  | some c => k c

/-! ## `internal/slackbot/controller/emtec.go` -/

namespace EmtecController

/-- Go `(*EmtecController).ListTrack`. -/
def ListTrack {Msg : Type} (v : View Msg) (env : Env Msg) (ev : AppMentionEvent) :
    List (Effect Msg) :=
  let channelId := ev.Channel
  let messageTs := ev.TimeStamp
  Effect.SlackNew ::
  match env.slackFactoryNew with
  | .error err => [Effect.LogError ("failed to initialize Slack client: " ++ err)]
  | .ok sc =>
    Effect.ListTrack ::
    match env.ListTrack with
    | .error err =>
      [Effect.LogError ("cndTrackClient.ListTrack() was failed: " ++ err),
       Effect.PostMessage channelId (v.SomethingIsWrong messageTs)
         (sc.PostMessage 0 channelId (v.SomethingIsWrong messageTs))]
    | .ok tracks =>
      match sc.PostMessage 0 channelId (v.EmtecListTrack tracks) with
      | some err =>
        [Effect.PostMessage channelId (v.EmtecListTrack tracks) (some err),
         Effect.LogError ("failed to post message: " ++ err),
         Effect.PostMessage channelId (v.SomethingIsWrong messageTs)
           (sc.PostMessage 1 channelId (v.SomethingIsWrong messageTs))]
      | none => [Effect.PostMessage channelId (v.EmtecListTrack tracks) none]

/-- Go `(*EmtecController).switchAutomation`. -/
def switchAutomation {Msg : Type} (v : View Msg) (env : Env Msg) (ev : AppMentionEvent)
    (enabled : Bool) : List (Effect Msg) :=
  let channelId := ev.Channel
  let messageTs := ev.TimeStamp
  Effect.SlackNew ::
  match env.slackFactoryNew with
  | .error err => [Effect.LogError ("failed to initialize Slack client: " ++ err)]
  | .ok sc =>
    let s := Fields ev.Text
    if ¬ (s.length ≥ 4) then
      [Effect.PostMessage channelId
         (v.InvalidArguments messageTs "args.length must be greater than 2")
         (sc.PostMessage 0 channelId
           (v.InvalidArguments messageTs "args.length must be greater than 2"))]
    else
      let trackIdStr := s.getD 3 ""
      match Atoi trackIdStr with
      | none =>
        [Effect.PostMessage channelId
           (v.InvalidArguments messageTs "args[1] (trackId) must be integer")
           (sc.PostMessage 0 channelId
             (v.InvalidArguments messageTs "args[1] (trackId) must be integer"))]
      | some trackId =>
        let reply (msg : Msg) : List (Effect Msg) :=
          match sc.PostMessage 0 channelId msg with
          | some err =>
            [Effect.PostMessage channelId msg (some err),
             Effect.LogError ("failed to post message: " ++ err),
             Effect.PostMessage channelId (v.SomethingIsWrong messageTs)
               (sc.PostMessage 1 channelId (v.SomethingIsWrong messageTs))]
          | none => [Effect.PostMessage channelId msg none]
        if enabled then
          Effect.EnableAutomation (toInt32 trackId) ::
          match env.EnableAutomation (toInt32 trackId) with
          | .error err =>
            [Effect.LogError ("cndTrackClient.DisableAutomation() was failed: " ++ err),
             Effect.PostMessage channelId (v.SomethingIsWrong messageTs)
               (sc.PostMessage 0 channelId (v.SomethingIsWrong messageTs))]
          | .ok trackName => reply (v.EmtecEnabled trackName)
        else
          Effect.DisableAutomation (toInt32 trackId) ::
          match env.DisableAutomation (toInt32 trackId) with
          | .error err =>
            [Effect.LogError ("cndTrackClient.DisableAutomation() was failed: " ++ err),
             Effect.PostMessage channelId (v.SomethingIsWrong messageTs)
               (sc.PostMessage 0 channelId (v.SomethingIsWrong messageTs))]
          | .ok trackName => reply (v.EmtecDisabled trackName)

/-- Go `(*EmtecController).EnableAutomation`. -/
def EnableAutomation {Msg : Type} (v : View Msg) (env : Env Msg) (ev : AppMentionEvent) :
    List (Effect Msg) :=
  switchAutomation v env ev true

/-- Go `(*EmtecController).DisableAutomation`. -/
def DisableAutomation {Msg : Type} (v : View Msg) (env : Env Msg) (ev : AppMentionEvent) :
    List (Effect Msg) :=
  switchAutomation v env ev false

/-- Go `(*EmtecController).UpdateSceneToNext`. After a failed factory call the code logs and
goes on with `sc` unset. -/
def UpdateSceneToNext {Msg : Type} (v : View Msg) (env : Env Msg)
    (interaction : InteractionCallback Msg) : List (Effect Msg) :=
  let channelId := interaction.ChannelID
  let messageTs := interaction.MessageTs
  let sentUserId := interaction.UserID
  let callbackValue := env.getCallbackValueOnButton interaction
  let sc : Option (SlackClient Msg) :=
    match env.slackFactoryNew with
    | .error _ => none
    | .ok c => some c
  let logNew : List (Effect Msg) :=
    match env.slackFactoryNew with
    | .error err => [Effect.LogError ("failed to initialize Slack client: " ++ err)]
    | .ok _ => []
  Effect.SlackNew :: (logNew ++
  match env.NewTrack callbackValue with
  | .error _ =>
    viaClient sc fun c =>
      [Effect.PostMessage channelId
         (v.InvalidArguments messageTs ("invalid format on callbackValue: " ++ callbackValue))
         (c.PostMessage 0 channelId
           (v.InvalidArguments messageTs ("invalid format on callbackValue: " ++ callbackValue)))]
  | .ok track =>
    Effect.MoveSceneToNext track.Id ::
    match env.MoveSceneToNext track.Id with
    | some err =>
      Effect.LogError ("cndSceneClient.MoveScneToNext() was failed: " ++ err) ::
      viaClient sc fun c =>
        [Effect.PostMessage channelId (v.SomethingIsWrong messageTs)
           (c.PostMessage 0 channelId (v.SomethingIsWrong messageTs))]
    | none =>
      match v.EmtecMovedToNextScene interaction.Message with
      | .error err =>
        Effect.LogInfo ("invalid interactive message: " ++ err) ::
        viaClient sc fun c =>
          [Effect.PostMessage channelId (v.SomethingIsWrong messageTs)
             (c.PostMessage 0 channelId (v.SomethingIsWrong messageTs))]
      | .ok msg =>
        viaClient sc fun c =>
          match c.UpdateMessage 0 channelId messageTs msg with
          | some err =>
            [Effect.UpdateMessage channelId messageTs msg (some err),
             Effect.LogError ("failed to post message: " ++ err),
             Effect.UpdateMessage channelId messageTs (v.SomethingIsWrong messageTs)
               (c.UpdateMessage 1 channelId messageTs (v.SomethingIsWrong messageTs))]
          | none =>
            Effect.UpdateMessage channelId messageTs msg none ::
            match c.PostMessageToThread 1 channelId messageTs
                (v.Text ("Switching was pushed by <@" ++ sentUserId ++ ">")) with
            | some err =>
              [Effect.PostMessageToThread channelId messageTs
                 (v.Text ("Switching was pushed by <@" ++ sentUserId ++ ">")) (some err),
               Effect.LogError ("failed to post message: " ++ err),
               Effect.UpdateMessage channelId messageTs (v.SomethingIsWrong messageTs)
                 (c.UpdateMessage 2 channelId messageTs (v.SomethingIsWrong messageTs))]
            | none =>
              [Effect.PostMessageToThread channelId messageTs
                 (v.Text ("Switching was pushed by <@" ++ sentUserId ++ ">")) none])

end EmtecController

/-! ## `seaman/controller/broadcast.go` -/

namespace BroadcastController

/-- Go `(*BroadcastController).ListTrack`. -/
def ListTrack {Msg : Type} (v : BroadcastView Msg) (env : Env Msg) (evt : SocketEvent) :
    List (Effect Msg) :=
  Effect.Ack evt.Request ::
  match env.getAppMentionEvent evt with
  | .error err => [Effect.LogrError err "failed to get AppMentionEvent"]
  | .ok ev =>
    let channelId := ev.Channel
    let messageTs := ev.TimeStamp
    Effect.SlackNew ::
    match env.slackFactoryNew with
    | .error err =>
      [Effect.LogrError ("message: " ++ err) "failed to initialize Slack client"]
    | .ok sc =>
      Effect.ListTrack ::
      match env.ListTrack with
      | .error err =>
        [Effect.LogrError err "cndTrackClient.ListTrack() was failed",
         Effect.PostMessage channelId (v.SomethingIsWrong messageTs)
           (sc.PostMessage 0 channelId (v.SomethingIsWrong messageTs))]
      | .ok tracks =>
        match sc.PostMessage 0 channelId (v.BroadcastListTrack tracks) with
        | some err =>
          [Effect.PostMessage channelId (v.BroadcastListTrack tracks) (some err),
           Effect.LogrError ("message: " ++ err) "failed to post message",
           Effect.PostMessage channelId (v.SomethingIsWrong messageTs)
             (sc.PostMessage 1 channelId (v.SomethingIsWrong messageTs))]
        | none => [Effect.PostMessage channelId (v.BroadcastListTrack tracks) none]

/-- Go `(*BroadcastController).switchAutomation`. -/
def switchAutomation {Msg : Type} (v : BroadcastView Msg) (env : Env Msg) (evt : SocketEvent)
    (enabled : Bool) : List (Effect Msg) :=
  match env.getAppMentionEvent evt with
  | .error err => [Effect.LogrError err "failed to get AppMentionEvent"]
  | .ok ev =>
    let channelId := ev.Channel
    let messageTs := ev.TimeStamp
    Effect.SlackNew ::
    match env.slackFactoryNew with
    | .error err =>
      [Effect.LogrError ("message: " ++ err) "failed to initialize Slack client"]
    | .ok sc =>
      let s := Fields ev.Text
      if ¬ (s.length ≥ 2) then
        [Effect.PostMessage channelId
           (v.InvalidArguments messageTs "args.length must be greater than 2")
           (sc.PostMessage 0 channelId
             (v.InvalidArguments messageTs "args.length must be greater than 2"))]
      else
        let trackIdStr := s.getD 1 ""
        match Atoi trackIdStr with
        | none =>
          [Effect.PostMessage channelId
             (v.InvalidArguments messageTs "args[1] (trackId) must be integer")
             (sc.PostMessage 0 channelId
               (v.InvalidArguments messageTs "args[1] (trackId) must be integer"))]
        | some trackId =>
          let reply (msg : Msg) : List (Effect Msg) :=
            match sc.PostMessage 0 channelId msg with
            | some err =>
              [Effect.PostMessage channelId msg (some err),
               Effect.LogrError ("message: " ++ err) "failed to post message",
               Effect.PostMessage channelId (v.SomethingIsWrong messageTs)
                 (sc.PostMessage 1 channelId (v.SomethingIsWrong messageTs))]
            | none => [Effect.PostMessage channelId msg none]
          if enabled then
            Effect.EnableAutomation (toInt32 trackId) ::
            match env.EnableAutomation (toInt32 trackId) with
            | .error err =>
              [Effect.LogrError err "cndTrackClient.DisableAutomation() was failed",
               Effect.PostMessage channelId (v.SomethingIsWrong messageTs)
                 (sc.PostMessage 0 channelId (v.SomethingIsWrong messageTs))]
            | .ok trackName => reply (v.BroadcastEnabled trackName)
          else
            Effect.DisableAutomation (toInt32 trackId) ::
            match env.DisableAutomation (toInt32 trackId) with
            | .error err =>
              [Effect.LogrError err "cndTrackClient.DisableAutomation() was failed",
               Effect.PostMessage channelId (v.SomethingIsWrong messageTs)
                 (sc.PostMessage 0 channelId (v.SomethingIsWrong messageTs))]
            | .ok trackName => reply (v.BroadcastDisabled trackName)

/-- Go `(*BroadcastController).DisableAutomation`. -/
def DisableAutomation {Msg : Type} (v : BroadcastView Msg) (env : Env Msg) (evt : SocketEvent) :
    List (Effect Msg) :=
  Effect.Ack evt.Request :: switchAutomation v env evt false

/-- Go `(*BroadcastController).EnableAutomation`. -/
def EnableAutomation {Msg : Type} (v : BroadcastView Msg) (env : Env Msg) (evt : SocketEvent) :
    List (Effect Msg) :=
  Effect.Ack evt.Request :: switchAutomation v env evt true

end BroadcastController

/-! ## Observations on a run -/

/-- Messages handed to `PostMessage`, in order. -/
def posted {Msg : Type} : List (Effect Msg) → List Msg
  | [] => []
  | Effect.PostMessage _ m _ :: es => m :: posted es
  | _ :: es => posted es

/-- A call to the remote production-control service. -/
def Effect.isRemote {Msg : Type} : Effect Msg → Bool
  | Effect.ListTrack => true
  | Effect.EnableAutomation _ => true
  | Effect.DisableAutomation _ => true
  | Effect.MoveSceneToNext _ => true
  | _ => false

/-- A reply-send: a call to the chat transport through the Slack client. -/
def Effect.isTransport {Msg : Type} : Effect Msg → Bool
  | Effect.PostMessage _ _ _ => true
  | Effect.UpdateMessage _ _ _ _ => true
  | Effect.PostMessageToThread _ _ _ _ => true
  | _ => false

/-- A reply-send that returned an error. -/
def Effect.isFailedSend {Msg : Type} : Effect Msg → Bool
  | Effect.PostMessage _ _ (some _) => true
  | Effect.UpdateMessage _ _ _ (some _) => true
  | Effect.PostMessageToThread _ _ _ (some _) => true
  | _ => false

/-- A call to `PostMessage`. -/
def Effect.isPostMessage {Msg : Type} : Effect Msg → Bool
  | Effect.PostMessage _ _ _ => true
  | _ => false

/-- A call to `UpdateMessage`. -/
def Effect.isUpdateMessage {Msg : Type} : Effect Msg → Bool
  | Effect.UpdateMessage _ _ _ _ => true
  | _ => false

/-- A call to `PostMessageToThread`. -/
def Effect.isPostMessageToThread {Msg : Type} : Effect Msg → Bool
  | Effect.PostMessageToThread _ _ _ _ => true
  | _ => false

/-- An acknowledgement to the transport. -/
def Effect.isAck {Msg : Type} : Effect Msg → Bool
  | Effect.Ack _ => true
  | _ => false

/-- The message carried by a transport call. -/
def Effect.message {Msg : Type} : Effect Msg → Option Msg
  | Effect.PostMessage _ m _ => some m
  | Effect.UpdateMessage _ _ m _ => some m
  | Effect.PostMessageToThread _ _ m _ => some m
  | _ => none

/-- The remote calls of a run, in order. -/
def remoteCalls {Msg : Type} (tr : List (Effect Msg)) : List (Effect Msg) :=
  tr.filter Effect.isRemote

/-- The transport calls of a run, in order. -/
def transportCalls {Msg : Type} (tr : List (Effect Msg)) : List (Effect Msg) :=
  tr.filter Effect.isTransport

/-- The run ended in a call through the missing Slack client instead of returning. -/
def crashed {Msg : Type} : List (Effect Msg) → Bool
  | [] => false
  | Effect.NilClient :: _ => true
  | _ :: es => crashed es

/-! ## Concrete views and environments for closed instances -/

/-- Symbolic messages: one constructor per view function. -/
inductive Rendered where
  | SomethingIsWrong (ts : String)
  | InvalidArguments (ts : String) (reason : String)
  | ListTrack (tracks : List Track)
  | Enabled (trackName : String)
  | Disabled (trackName : String)
  | MovedToNextScene
  | Original
  | Text (text : String)
  deriving Repr, DecidableEq

/-- The symbolic instance of `internal/slackbot/view`. -/
def symView : View Rendered where
  SomethingIsWrong := Rendered.SomethingIsWrong
  InvalidArguments := Rendered.InvalidArguments
  EmtecListTrack := Rendered.ListTrack
  EmtecEnabled := Rendered.Enabled
  EmtecDisabled := Rendered.Disabled
  EmtecMovedToNextScene := fun _ => Except.ok Rendered.MovedToNextScene
  Text := Rendered.Text

/-- The symbolic instance of `seaman/view`. -/
def symBroadcastView : BroadcastView Rendered where
  SomethingIsWrong := Rendered.SomethingIsWrong
  InvalidArguments := Rendered.InvalidArguments
  BroadcastListTrack := Rendered.ListTrack
  BroadcastEnabled := Rendered.Enabled
  BroadcastDisabled := Rendered.Disabled

/-- A Slack client whose every call succeeds. -/
def okClient : SlackClient Rendered where
  PostMessage := fun _ _ _ => none
  UpdateMessage := fun _ _ _ _ => none
  PostMessageToThread := fun _ _ _ _ => none

/-- A callback value is accepted when it is a decimal literal, the track id. -/
def sampleNewTrack (callbackValue : String) : Except Err Track :=
  match Atoi callbackValue with
  | none => Except.error "invalid callback value"
  | some n => Except.ok (Track.mk n "Track")

/-- The factory and every remote call succeed; every track is named `Stage A`. -/
def okEnv : Env Rendered where
  slackFactoryNew := Except.ok okClient
  ListTrack := Except.ok [Track.mk 7 "Stage A"]
  EnableAutomation := fun _ => Except.ok "Stage A"
  DisableAutomation := fun _ => Except.ok "Stage A"
  MoveSceneToNext := fun _ => none
  getAppMentionEvent := fun evt => Except.ok (AppMentionEvent.mk "C1" "1700000000.000100" evt.Data)
  getCallbackValueOnButton := fun i => i.ActionValues.headD ""
  NewTrack := sampleNewTrack

/-- As `okEnv`, but the Slack client factory fails. -/
def noClientEnv : Env Rendered :=
  { okEnv with slackFactoryNew := Except.error "auth failed" }

/-- As `noClientEnv`, and the remote calls fail too. -/
def noClientRemoteDownEnv : Env Rendered :=
  { noClientEnv with
    EnableAutomation := fun _ => Except.error "unavailable"
    DisableAutomation := fun _ => Except.error "unavailable"
    MoveSceneToNext := fun _ => some "unavailable" }

/-- An app-mention event with the given text. -/
def mention (text : String) : AppMentionEvent :=
  AppMentionEvent.mk "C1" "1700000000.000100" text

/-- A button click whose callback value is `value`. -/
def click (value : String) : InteractionCallback Rendered :=
  InteractionCallback.mk "C1" "1700000000.000100" "U1" Rendered.Original [value]

/-- What may follow a failed reply-send: at most one more transport call, every transport call
carries `notice`, no remote call is made, and the transport call, if any, ends the run. -/
def QuietAfter {Msg : Type} (notice : Msg) (post : List (Effect Msg)) : Prop :=
  (transportCalls post).length ≤ 1 ∧
  (∀ x ∈ post, x.isTransport = true → x.message = some notice) ∧
  remoteCalls post = [] ∧
  (∀ r ∈ transportCalls post, post.getLast? = some r)

/-- The retry discipline of a run: wherever a reply-send failed, the rest of the run is
`QuietAfter`. -/
def RetryOnce {Msg : Type} (notice : Msg) (tr : List (Effect Msg)) : Prop :=
  ∀ (pre : List (Effect Msg)) (e : Effect Msg) (post : List (Effect Msg)),
    tr = pre ++ e :: post → e.isFailedSend = true → QuietAfter notice post

/-- The retry discipline, checked effect by effect from the front. -/
def retryCheck {Msg : Type} (notice : Msg) : List (Effect Msg) → Prop
  | [] => True
  | e :: rest => (e.isFailedSend = true → QuietAfter notice rest) ∧ retryCheck notice rest

/-! ## Lemmas on the library pieces -/

theorem digitVal_of_digit {c : Char} (h : 48 ≤ c.toNat ∧ c.toNat ≤ 57) :
    digitVal c = some (c.toNat - 48) := by
  unfold digitVal
  rw [if_neg]
  omega

theorem digitVal_some {c : Char} {d : Nat} (h : digitVal c = some d) :
    (48 ≤ c.toNat ∧ c.toNat ≤ 57) ∧ d = c.toNat - 48 := by
  unfold digitVal at h
  split at h
  · cases h
  · cases h
    omega

theorem parseDigits_digits (body : List Char)
    (h : ∀ c ∈ body, 48 ≤ c.toNat ∧ c.toNat ≤ 57) (acc : Nat) :
    parseDigits body acc =
      some (acc * 10 ^ body.length +
        Nat.ofDigits 10 (body.reverse.map (fun c => c.toNat - 48))) := by
  induction body generalizing acc with
  | nil => simp [parseDigits]
  | cons c cs ih =>
    have hc := h c (List.mem_cons_self _ _)
    have hcs : ∀ x ∈ cs, 48 ≤ x.toNat ∧ x.toNat ≤ 57 :=
      fun x hx => h x (List.mem_cons_of_mem _ hx)
    simp only [parseDigits, digitVal_of_digit hc, ih hcs, List.reverse_cons, List.map_append,
      List.map_cons, List.map_nil, Nat.ofDigits_append, Nat.ofDigits_singleton,
      List.length_cons, List.length_map, List.length_reverse, Option.some.injEq]
    ring

theorem parseDigits_some (body : List Char) (acc v : Nat) (h : parseDigits body acc = some v) :
    ∀ c ∈ body, 48 ≤ c.toNat ∧ c.toNat ≤ 57 := by
  induction body generalizing acc with
  | nil => intro c hc; cases hc
  | cons c cs ih =>
    unfold parseDigits at h
    cases hd : digitVal c with
    | none => rw [hd] at h; cases h
    | some d =>
      rw [hd] at h
      intro x hx
      rcases List.mem_cons.mp hx with rfl | hx
      · exact (digitVal_some hd).1
      · exact ih _ h x hx

theorem toInt32_of_inInt32 {n : Int} (h : InInt32 n) : toInt32 n = n := by
  unfold InInt32 at h
  unfold toInt32
  omega

theorem not_sign_of_digit {c : Char} (h : 48 ≤ c.toNat ∧ c.toNat ≤ 57) :
    ¬ (c = '-' ∨ c = '+') := by
  rintro (rfl | rfl)
  · exact absurd h.1 (by decide)
  · exact absurd h.1 (by decide)

/-- `Atoi` accepts every decimal literal whose value fits a 64-bit `int`. -/
theorem Atoi_of_literal {s : String} {n : Int} (h : DecimalLiteral s n)
    (hlo : -(2 ^ 63) ≤ n) (hhi : n < 2 ^ 63) : Atoi s = some n := by
  obtain ⟨sign, body, hsign, hne, hdig, hs, hn⟩ := h
  have hp := parseDigits_digits body hdig 0
  simp only [Nat.zero_mul, Nat.zero_add] at hp
  rcases hsign with rfl | rfl | rfl
  · cases body with
    | nil => exact absurd rfl hne
    | cons c cs =>
      have hc := not_sign_of_digit (hdig c (List.mem_cons_self _ _))
      have hc1 : c ≠ '-' := fun e => hc (Or.inl e)
      simp only [List.nil_append] at hs
      have hne1 : ([] : List Char) ≠ ['-'] := by decide
      simp only [if_neg hne1, one_mul] at hn
      unfold Atoi
      rw [hs]
      simp only [if_neg hc, hp, if_neg hc1, List.cons_ne_nil, if_false]
      rw [if_neg (by omega)]
      rw [hn]
  · simp only [List.singleton_append] at hs
    have hne2 : (['+'] : List Char) ≠ ['-'] := by decide
    simp only [if_neg hne2, one_mul] at hn
    unfold Atoi
    rw [hs]
    have hplus : ('+' : Char) ≠ '-' := by decide
    simp only [Or.inr, if_true, or_true, if_neg hne, hp, if_neg hplus]
    rw [if_neg (by omega)]
    rw [hn]
  · simp only [List.singleton_append] at hs
    simp only [if_true, neg_mul, one_mul] at hn
    unfold Atoi
    rw [hs]
    simp only [true_or, if_true, if_neg hne, hp]
    rw [if_neg (by omega)]
    rw [hn]

/-- Whatever `Atoi` accepts is a decimal literal for the value it returns. -/
theorem Atoi_literal {s : String} {n : Int} (h : Atoi s = some n) : DecimalLiteral s n := by
  unfold Atoi at h
  cases hs : s.toList with
  | nil => rw [hs] at h; cases h
  | cons c cs =>
    rw [hs] at h
    simp only at h
    by_cases hsg : c = '-' ∨ c = '+'
    · rw [if_pos hsg] at h
      by_cases hcs : cs = []
      · rw [if_pos hcs] at h; cases h
      · rw [if_neg hcs] at h
        cases hp : parseDigits cs 0 with
        | none => rw [hp] at h; cases h
        | some un =>
          rw [hp] at h
          have hdig := parseDigits_some cs 0 un hp
          have hv := parseDigits_digits cs hdig 0
          rw [hp] at hv
          simp only [Nat.zero_mul, Nat.zero_add, Option.some.injEq] at hv
          by_cases hm : c = '-'
          · subst hm
            simp only [if_true] at h
            split at h
            · cases h
            · cases h
              exact ⟨['-'], cs, Or.inr (Or.inr rfl), hcs, hdig, hs, by simp [hv]⟩
          · have hpl : c = '+' := hsg.resolve_left hm
            subst hpl
            simp only [if_neg hm] at h
            split at h
            · cases h
            · cases h
              exact ⟨['+'], cs, Or.inr (Or.inl rfl), hcs, hdig, hs, by simp [hv]⟩
    · rw [if_neg hsg] at h
      simp only [List.cons_ne_nil, if_false] at h
      cases hp : parseDigits (c :: cs) 0 with
      | none => rw [hp] at h; cases h
      | some un =>
        rw [hp] at h
        have hdig := parseDigits_some (c :: cs) 0 un hp
        have hv := parseDigits_digits (c :: cs) hdig 0
        rw [hp] at hv
        simp only [Nat.zero_mul, Nat.zero_add, Option.some.injEq] at hv
        have hm : c ≠ '-' := fun e => hsg (Or.inl e)
        simp only [if_neg hm] at h
        split at h
        · cases h
        · cases h
          exact ⟨[], c :: cs, Or.inl rfl, List.cons_ne_nil _ _, hdig, hs, by simp [hv]⟩

/-- A field that is no decimal literal makes `Atoi` fail. -/
theorem Atoi_none_of_not_literal {s : String} (h : ¬ ∃ n, DecimalLiteral s n) :
    Atoi s = none := by
  cases hA : Atoi s with
  | none => rfl
  | some n => exact absurd ⟨n, Atoi_literal hA⟩ h

/-- Every character after the first one of a decimal literal is a digit. -/
theorem DecimalLiteral.tail_digits {s : String} {n : Int} (h : DecimalLiteral s n) :
    ∀ c ∈ s.toList.tail, 48 ≤ c.toNat ∧ c.toNat ≤ 57 := by
  obtain ⟨sign, body, hsign, _, hdig, hs, _⟩ := h
  rw [hs]
  rcases hsign with rfl | rfl | rfl
  · intro c hc
    exact hdig c (List.mem_of_mem_tail hc)
  · intro c hc
    exact hdig c hc
  · intro c hc
    exact hdig c hc

theorem retryOnce_of_check {Msg : Type} (notice : Msg) (tr : List (Effect Msg))
    (h : retryCheck notice tr) : RetryOnce notice tr := by
  induction tr with
  | nil =>
    intro pre e post hdec
    cases pre <;> cases hdec
  | cons a rest ih =>
    intro pre e post hdec hfail
    cases pre with
    | nil =>
      simp only [List.nil_append, List.cons.injEq] at hdec
      obtain ⟨rfl, rfl⟩ := hdec
      exact h.1 hfail
    | cons b pre =>
      simp only [List.cons_append, List.cons.injEq] at hdec
      exact ih h.2 pre e post hdec.2 hfail

/-! ## The claims -/

/-- C1: with fewer whitespace-separated fields than the minimum (4 for
`EmtecController.switchAutomation`, 2 for `BroadcastController.switchAutomation`), for either
value of `enabled`, when the Slack client factory succeeds the handler posts exactly one
message, `InvalidArguments(messageTs, "args.length must be greater than 2")`, makes no other
transport call and no remote call. -/
theorem C1_too_few_fields {Msg : Type} (v : View Msg) (bv : BroadcastView Msg) (env : Env Msg)
    (sc : SlackClient Msg) (hsc : env.slackFactoryNew = Except.ok sc) (enabled : Bool) :
    (∀ ev : AppMentionEvent, (Fields ev.Text).length < 4 →
      posted (EmtecController.switchAutomation v env ev enabled) =
        [v.InvalidArguments ev.TimeStamp "args.length must be greater than 2"] ∧
      (transportCalls (EmtecController.switchAutomation v env ev enabled)).length = 1 ∧
      remoteCalls (EmtecController.switchAutomation v env ev enabled) = []) ∧
    (∀ (evt : SocketEvent) (ev : AppMentionEvent), env.getAppMentionEvent evt = Except.ok ev →
      (Fields ev.Text).length < 2 →
      posted (BroadcastController.switchAutomation bv env evt enabled) =
        [bv.InvalidArguments ev.TimeStamp "args.length must be greater than 2"] ∧
      (transportCalls (BroadcastController.switchAutomation bv env evt enabled)).length = 1 ∧
      remoteCalls (BroadcastController.switchAutomation bv env evt enabled) = []) := by
  constructor
  · intro ev hlen
    have hlen2 : ¬ (Fields ev.Text).length ≥ 4 := by omega
    simp [EmtecController.switchAutomation, hsc, hlen2, posted, transportCalls, remoteCalls,
      Effect.isTransport, Effect.isRemote]
  · intro evt ev hev hlen
    have hlen2 : ¬ (Fields ev.Text).length ≥ 2 := by omega
    simp [BroadcastController.switchAutomation, hsc, hev, hlen2, posted, transportCalls,
      remoteCalls, Effect.isTransport, Effect.isRemote]

/-- C1 at `@bot track automate` (three fields) for the emtec handler and at `@bot` (one
field) for the broadcast handler. -/
theorem C1_too_few_fields_witness :
    (Fields (mention "@bot track automate").Text).length < 4 ∧
    posted (EmtecController.switchAutomation symView okEnv (mention "@bot track automate") true) =
      [Rendered.InvalidArguments "1700000000.000100" "args.length must be greater than 2"] ∧
    remoteCalls
      (EmtecController.switchAutomation symView okEnv (mention "@bot track automate") true) = [] ∧
    posted (BroadcastController.switchAutomation symBroadcastView okEnv
      (SocketEvent.mk "envelope-1" "@bot") false) =
      [Rendered.InvalidArguments "1700000000.000100" "args.length must be greater than 2"] ∧
    remoteCalls (BroadcastController.switchAutomation symBroadcastView okEnv
      (SocketEvent.mk "envelope-1" "@bot") false) = [] :=
  have hE := (C1_too_few_fields symView symBroadcastView okEnv okClient rfl true).1
    (mention "@bot track automate") (by decide)
  have hB := (C1_too_few_fields symView symBroadcastView okEnv okClient rfl false).2
    (SocketEvent.mk "envelope-1" "@bot") (mention "@bot") rfl (by decide)
  ⟨by decide, hE.1, hE.2.2, hB.1, hB.2.2⟩

/-- C2, as stated, fails when the Slack client factory fails: `@bot track automate enable` has
four fields, the fourth (`enable`) is no decimal literal, and yet nothing is posted. -/
theorem C2_counterexample :
    (Fields (mention "@bot track automate enable").Text)[3]? = some "enable" ∧
    (¬ ∃ n, DecimalLiteral "enable" n) ∧
    posted (EmtecController.switchAutomation symView noClientEnv
      (mention "@bot track automate enable") true) = [] ∧
    posted (EmtecController.switchAutomation symView noClientEnv
      (mention "@bot track automate enable") true) ≠
      [symView.InvalidArguments "1700000000.000100" "args[1] (trackId) must be integer"] := by
  refine ⟨by decide, ?_, by decide, by decide⟩
  rintro ⟨n, hn⟩
  exact absurd (hn.tail_digits 'n' (by decide)) (by decide)

/-- C2 (amended): when the Slack client factory succeeds, for every event text with at least
four whitespace-separated fields whose fourth field is not a base-10 integer literal,
`EmtecController.switchAutomation` (enable or disable) posts exactly one message,
`InvalidArguments(messageTs, "args[1] (trackId) must be integer")`, makes no other transport
call and no remote call. -/
theorem C2_non_integer_track_id {Msg : Type} (v : View Msg) (env : Env Msg)
    (sc : SlackClient Msg) (hsc : env.slackFactoryNew = Except.ok sc)
    (ev : AppMentionEvent) (enabled : Bool) (f : String)
    (hf : (Fields ev.Text)[3]? = some f) (hnot : ¬ ∃ n, DecimalLiteral f n) :
    posted (EmtecController.switchAutomation v env ev enabled) =
      [v.InvalidArguments ev.TimeStamp "args[1] (trackId) must be integer"] ∧
    (transportCalls (EmtecController.switchAutomation v env ev enabled)).length = 1 ∧
    remoteCalls (EmtecController.switchAutomation v env ev enabled) = [] := by
  have hlen : (Fields ev.Text).length ≥ 4 := by
    have := (List.getElem?_eq_some_iff.mp hf).1
    omega
  have hA : Atoi f = none := Atoi_none_of_not_literal hnot
  simp [EmtecController.switchAutomation, hsc, hlen, hf, hA, posted, transportCalls,
    remoteCalls, Effect.isTransport, Effect.isRemote]

/-- C2 (amended) at the text `@bot track automate enable`, for enable and for disable. -/
theorem C2_non_integer_track_id_witness :
    (posted (EmtecController.switchAutomation symView okEnv
      (mention "@bot track automate enable") true) =
      [Rendered.InvalidArguments "1700000000.000100" "args[1] (trackId) must be integer"] ∧
     remoteCalls (EmtecController.switchAutomation symView okEnv
      (mention "@bot track automate enable") true) = []) ∧
    (posted (EmtecController.switchAutomation symView okEnv
      (mention "@bot track automate enable") false) =
      [Rendered.InvalidArguments "1700000000.000100" "args[1] (trackId) must be integer"] ∧
     remoteCalls (EmtecController.switchAutomation symView okEnv
      (mention "@bot track automate enable") false) = []) :=
  have hnot : ¬ ∃ n, DecimalLiteral "enable" n := fun ⟨_, hn⟩ =>
    absurd (hn.tail_digits 'n' (by decide)) (by decide)
  have h1 := C2_non_integer_track_id symView okEnv okClient rfl
    (mention "@bot track automate enable") true "enable" (by decide) hnot
  have h2 := C2_non_integer_track_id symView okEnv okClient rfl
    (mention "@bot track automate enable") false "enable" (by decide) hnot
  ⟨⟨h1.1, h1.2.2⟩, ⟨h2.1, h2.2.2⟩⟩

/-- C3 (the code at the failing input): `4294967303` is a decimal literal outside the signed
32-bit range; the emtec handler, given it as fourth field, and the broadcast handler, given
it as second field, send the remote request for track 7 and report success, with no
`InvalidArguments` reply. -/
theorem C3_out_of_range_id_is_truncated :
    DecimalLiteral "4294967303" 4294967303 ∧ ¬ InInt32 4294967303 ∧
    EmtecController.switchAutomation symView okEnv
      (mention "@bot automate enable 4294967303") true =
      [Effect.SlackNew, Effect.EnableAutomation 7,
       Effect.PostMessage "C1" (Rendered.Enabled "Stage A") none] ∧
    EmtecController.switchAutomation symView okEnv
      (mention "@bot automate disable 4294967303") false =
      [Effect.SlackNew, Effect.DisableAutomation 7,
       Effect.PostMessage "C1" (Rendered.Disabled "Stage A") none] ∧
    BroadcastController.switchAutomation symBroadcastView okEnv
      (SocketEvent.mk "envelope-1" "@bot 4294967303") true =
      [Effect.SlackNew, Effect.EnableAutomation 7,
       Effect.PostMessage "C1" (Rendered.Enabled "Stage A") none] :=
  ⟨Atoi_literal (by decide), by decide, by decide, by decide, by decide⟩

/-- C4, as stated, fails: in `@bot track automate enable 7` the fourth field is `enable`, so
the emtec handler replies `InvalidArguments` and never calls the remote service, although
`EnableAutomation(7)` would return `Stage A` and the factory and the post succeed. The
broadcast handler reads the second field, `track`, with the same outcome. -/
theorem C4_counterexample :
    InInt32 7 ∧ okEnv.EnableAutomation 7 = Except.ok "Stage A" ∧
    Fields "@bot track automate enable 7" = ["@bot", "track", "automate", "enable", "7"] ∧
    EmtecController.EnableAutomation symView okEnv (mention "@bot track automate enable 7") =
      [Effect.SlackNew,
       Effect.PostMessage "C1"
         (Rendered.InvalidArguments "1700000000.000100" "args[1] (trackId) must be integer")
         none] ∧
    remoteCalls (EmtecController.EnableAutomation symView okEnv
      (mention "@bot track automate enable 7")) ≠ [Effect.EnableAutomation 7] ∧
    posted (EmtecController.EnableAutomation symView okEnv
      (mention "@bot track automate enable 7")) ≠ [symView.EmtecEnabled "Stage A"] ∧
    BroadcastController.EnableAutomation symBroadcastView okEnv
      (SocketEvent.mk "envelope-1" "@bot track automate enable 7") =
      [Effect.Ack "envelope-1", Effect.SlackNew,
       Effect.PostMessage "C1"
         (Rendered.InvalidArguments "1700000000.000100" "args[1] (trackId) must be integer")
         none] := by
  refine ⟨by decide, rfl, by decide, by decide, by decide, by decide, by decide⟩

/-- C4 (amended): for every track id `n` in the signed 32-bit range and every track name `t`,
when the fourth whitespace-separated field of the event text is a base-10 literal of `n`
(as in `@bot automate enable <n>`), the remote `EnableAutomation(n)` returns `t`, and the
Slack factory and the post succeed, the emtec `EnableAutomation` handler issues exactly one
remote call, `EnableAutomation` with `TrackId = n`, and posts exactly one reply,
`EmtecEnabled(t)`. -/
theorem C4_enable_fourth_field {Msg : Type} (v : View Msg) (env : Env Msg)
    (sc : SlackClient Msg) (hsc : env.slackFactoryNew = Except.ok sc)
    (ev : AppMentionEvent) (f : String) (n : Int) (t : String)
    (hf : (Fields ev.Text)[3]? = some f) (hlit : DecimalLiteral f n) (hn : InInt32 n)
    (hremote : env.EnableAutomation n = Except.ok t)
    (hpost : sc.PostMessage 0 ev.Channel (v.EmtecEnabled t) = none) :
    remoteCalls (EmtecController.EnableAutomation v env ev) = [Effect.EnableAutomation n] ∧
    posted (EmtecController.EnableAutomation v env ev) = [v.EmtecEnabled t] ∧
    (transportCalls (EmtecController.EnableAutomation v env ev)).length = 1 := by
  have hlen : (Fields ev.Text).length ≥ 4 := by
    have := (List.getElem?_eq_some_iff.mp hf).1
    omega
  have hA : Atoi f = some n := by
    unfold InInt32 at hn
    exact Atoi_of_literal hlit (by omega) (by omega)
  simp [EmtecController.EnableAutomation, EmtecController.switchAutomation, hsc, hlen, hf,
    hA, toInt32_of_inInt32 hn, hremote, hpost, posted, transportCalls, remoteCalls,
    Effect.isTransport, Effect.isRemote]

/-- C4 (amended) at `n = 7`, `t = "Stage A"`, text `@bot automate enable 7`. -/
theorem C4_enable_fourth_field_witness :
    remoteCalls (EmtecController.EnableAutomation symView okEnv
      (mention "@bot automate enable 7")) = [Effect.EnableAutomation 7] ∧
    posted (EmtecController.EnableAutomation symView okEnv
      (mention "@bot automate enable 7")) = [Rendered.Enabled "Stage A"] ∧
    (transportCalls (EmtecController.EnableAutomation symView okEnv
      (mention "@bot automate enable 7"))).length = 1 :=
  C4_enable_fourth_field symView okEnv okClient rfl (mention "@bot automate enable 7") "7" 7
    "Stage A" (by decide) (Atoi_literal (by decide)) (by decide) rfl rfl

/-- When the Slack client exists, a failed remote call ends the run with one
`SomethingIsWrong(messageTs)` post, whatever the error value is. -/
theorem remote_failure_is_terminal {Msg : Type} (v : View Msg) (env : Env Msg)
    (sc : SlackClient Msg) (hsc : env.slackFactoryNew = Except.ok sc) :
    (∀ (ev : AppMentionEvent) (f : String) (n : Int) (err : Err),
      (Fields ev.Text)[3]? = some f → Atoi f = some n →
      (env.EnableAutomation (toInt32 n) = Except.error err →
        transportCalls (EmtecController.switchAutomation v env ev true) =
          [Effect.PostMessage ev.Channel (v.SomethingIsWrong ev.TimeStamp)
            (sc.PostMessage 0 ev.Channel (v.SomethingIsWrong ev.TimeStamp))]) ∧
      (env.DisableAutomation (toInt32 n) = Except.error err →
        transportCalls (EmtecController.switchAutomation v env ev false) =
          [Effect.PostMessage ev.Channel (v.SomethingIsWrong ev.TimeStamp)
            (sc.PostMessage 0 ev.Channel (v.SomethingIsWrong ev.TimeStamp))])) ∧
    (∀ (i : InteractionCallback Msg) (track : Track) (err : Err),
      env.NewTrack (env.getCallbackValueOnButton i) = Except.ok track →
      env.MoveSceneToNext track.Id = some err →
      transportCalls (EmtecController.UpdateSceneToNext v env i) =
        [Effect.PostMessage i.ChannelID (v.SomethingIsWrong i.MessageTs)
          (sc.PostMessage 0 i.ChannelID (v.SomethingIsWrong i.MessageTs))]) := by
  constructor
  · intro ev f n err hf hA
    have hlen : (Fields ev.Text).length ≥ 4 := by
      have := (List.getElem?_eq_some_iff.mp hf).1
      omega
    constructor
    · intro hr
      simp [EmtecController.switchAutomation, hsc, hlen, hf, hA, hr, transportCalls,
        Effect.isTransport]
    · intro hr
      simp [EmtecController.switchAutomation, hsc, hlen, hf, hA, hr, transportCalls,
        Effect.isTransport]
  · intro i track err ht hr
    simp [EmtecController.UpdateSceneToNext, hsc, ht, hr, viaClient, transportCalls,
      Effect.isTransport]

/-- C5 (the code at the failing input): the factory fails, the callback value `7` is valid
and `MoveSceneToNext(7)` returns an error. `UpdateSceneToNext` has logged the factory
failure and gone on, so the remote call is made and the `SomethingIsWrong` reply is
attempted through the missing client: no message is posted. -/
theorem C5_remote_failure_without_client :
    EmtecController.UpdateSceneToNext symView noClientRemoteDownEnv (click "7") =
      [Effect.SlackNew,
       Effect.LogError "failed to initialize Slack client: auth failed",
       Effect.MoveSceneToNext 7,
       Effect.LogError "cndSceneClient.MoveScneToNext() was failed: unavailable",
       Effect.NilClient] ∧
    posted (EmtecController.UpdateSceneToNext symView noClientRemoteDownEnv (click "7")) = [] ∧
    crashed (EmtecController.UpdateSceneToNext symView noClientRemoteDownEnv (click "7")) =
      true := by
  refine ⟨by decide, by decide, by decide⟩

/-- C6: in every run of `ListTrack`, `switchAutomation` and `UpdateSceneToNext` of
`EmtecController`, after a reply-send (`PostMessage`, `UpdateMessage`,
`PostMessageToThread`) returned an error there is at most one more transport call, it
carries `SomethingIsWrong(messageTs)`, it is the last effect of the run whatever it returns,
and no remote call follows. `ListTrack` and `switchAutomation` call `PostMessage` at most
twice in a run. -/
theorem C6_one_retry_then_stop {Msg : Type} (v : View Msg) (env : Env Msg) :
    (∀ ev : AppMentionEvent,
      RetryOnce (v.SomethingIsWrong ev.TimeStamp) (EmtecController.ListTrack v env ev)) ∧
    (∀ (ev : AppMentionEvent) (enabled : Bool),
      RetryOnce (v.SomethingIsWrong ev.TimeStamp)
        (EmtecController.switchAutomation v env ev enabled)) ∧
    (∀ i : InteractionCallback Msg,
      RetryOnce (v.SomethingIsWrong i.MessageTs) (EmtecController.UpdateSceneToNext v env i)) ∧
    (∀ ev : AppMentionEvent,
      ((EmtecController.ListTrack v env ev).filter Effect.isPostMessage).length ≤ 2) ∧
    (∀ (ev : AppMentionEvent) (enabled : Bool),
      ((EmtecController.switchAutomation v env ev enabled).filter
        Effect.isPostMessage).length ≤ 2) := by
  refine ⟨?_, ?_, ?_, ?_, ?_⟩
  · intro ev
    apply retryOnce_of_check
    simp only [EmtecController.ListTrack]
    repeat' split
    all_goals simp [retryCheck, QuietAfter, transportCalls, remoteCalls, Effect.isTransport,
      Effect.isRemote, Effect.isFailedSend, Effect.message]
  · intro ev enabled
    apply retryOnce_of_check
    simp only [EmtecController.switchAutomation]
    repeat' split
    all_goals simp [retryCheck, QuietAfter, transportCalls, remoteCalls, Effect.isTransport,
      Effect.isRemote, Effect.isFailedSend, Effect.message]
  · intro i
    apply retryOnce_of_check
    cases hnew : env.slackFactoryNew
    all_goals simp only [EmtecController.UpdateSceneToNext, hnew, viaClient]
    all_goals repeat' split
    all_goals simp [retryCheck, QuietAfter, transportCalls, remoteCalls, Effect.isTransport,
      Effect.isRemote, Effect.isFailedSend, Effect.message]
  · intro ev
    simp only [EmtecController.ListTrack]
    repeat' split
    all_goals simp [Effect.isPostMessage]
  · intro ev enabled
    simp only [EmtecController.switchAutomation]
    repeat' split
    all_goals simp [Effect.isPostMessage]

/-- C7: whatever the event and whatever the outcome of the later steps (decoding, factory,
argument checks, remote call, post), each public handler of `BroadcastController`
(`ListTrack`, `EnableAutomation`, `DisableAutomation`) acknowledges the event exactly once,
and that `Ack` is the first effect of the run. -/
theorem C7_ack_first_and_once {Msg : Type} (v : BroadcastView Msg) (env : Env Msg)
    (evt : SocketEvent) :
    (∃ rest, BroadcastController.ListTrack v env evt = Effect.Ack evt.Request :: rest ∧
      rest.filter Effect.isAck = [] ∧
      (BroadcastController.ListTrack v env evt).filter Effect.isAck =
        [Effect.Ack evt.Request]) ∧
    (∃ rest, BroadcastController.EnableAutomation v env evt = Effect.Ack evt.Request :: rest ∧
      rest.filter Effect.isAck = [] ∧
      (BroadcastController.EnableAutomation v env evt).filter Effect.isAck =
        [Effect.Ack evt.Request]) ∧
    (∃ rest, BroadcastController.DisableAutomation v env evt = Effect.Ack evt.Request :: rest ∧
      rest.filter Effect.isAck = [] ∧
      (BroadcastController.DisableAutomation v env evt).filter Effect.isAck =
        [Effect.Ack evt.Request]) := by
  have hsw : ∀ enabled : Bool,
      (BroadcastController.switchAutomation v env evt enabled).filter Effect.isAck = [] := by
    intro enabled
    simp only [BroadcastController.switchAutomation]
    repeat' split
    all_goals simp [Effect.isAck]
  have hlt : ∃ rest, BroadcastController.ListTrack v env evt = Effect.Ack evt.Request :: rest ∧
      rest.filter Effect.isAck = [] := by
    simp only [BroadcastController.ListTrack]
    refine ⟨_, rfl, ?_⟩
    repeat' split
    all_goals simp [Effect.isAck]
  obtain ⟨rest, hrest, hnone⟩ := hlt
  refine ⟨⟨rest, hrest, hnone, ?_⟩, ⟨_, rfl, hsw true, ?_⟩, ⟨_, rfl, hsw false, ?_⟩⟩
  · rw [hrest]
    simp [Effect.isAck, hnone]
  · simp [BroadcastController.EnableAutomation, Effect.isAck, hsw true]
  · simp [BroadcastController.DisableAutomation, Effect.isAck, hsw false]

/-- C8: when the Slack client factory succeeds and `api.NewTrack` rejects the callback value,
`UpdateSceneToNext` makes no remote call (no `MoveSceneToNext`), no `UpdateMessage` and no
`PostMessageToThread`, posts exactly one reply, an `InvalidArguments` message, and returns
normally. -/
theorem C8_rejected_callback_value {Msg : Type} (v : View Msg) (env : Env Msg)
    (sc : SlackClient Msg) (hsc : env.slackFactoryNew = Except.ok sc)
    (i : InteractionCallback Msg) (err : Err)
    (hdec : env.NewTrack (env.getCallbackValueOnButton i) = Except.error err) :
    remoteCalls (EmtecController.UpdateSceneToNext v env i) = [] ∧
    (EmtecController.UpdateSceneToNext v env i).filter Effect.isUpdateMessage = [] ∧
    (EmtecController.UpdateSceneToNext v env i).filter Effect.isPostMessageToThread = [] ∧
    posted (EmtecController.UpdateSceneToNext v env i) =
      [v.InvalidArguments i.MessageTs
        ("invalid format on callbackValue: " ++ env.getCallbackValueOnButton i)] ∧
    (transportCalls (EmtecController.UpdateSceneToNext v env i)).length = 1 ∧
    crashed (EmtecController.UpdateSceneToNext v env i) = false := by
  simp [EmtecController.UpdateSceneToNext, hsc, hdec, viaClient, remoteCalls, transportCalls,
    posted, crashed, Effect.isRemote, Effect.isTransport, Effect.isUpdateMessage,
    Effect.isPostMessageToThread]

/-- C8 at the callback value `next-scene`, which the sample decoder rejects. -/
theorem C8_rejected_callback_value_witness :
    okEnv.NewTrack (okEnv.getCallbackValueOnButton (click "next-scene")) =
      Except.error "invalid callback value" ∧
    remoteCalls (EmtecController.UpdateSceneToNext symView okEnv (click "next-scene")) = [] ∧
    posted (EmtecController.UpdateSceneToNext symView okEnv (click "next-scene")) =
      [Rendered.InvalidArguments "1700000000.000100"
        "invalid format on callbackValue: next-scene"] ∧
    crashed (EmtecController.UpdateSceneToNext symView okEnv (click "next-scene")) = false :=
  have hdec : okEnv.NewTrack (okEnv.getCallbackValueOnButton (click "next-scene")) =
      Except.error "invalid callback value" := by
    show sampleNewTrack "next-scene" = Except.error "invalid callback value"
    unfold sampleNewTrack
    rw [show Atoi "next-scene" = none by decide]
  have h := C8_rejected_callback_value symView okEnv okClient rfl (click "next-scene")
    "invalid callback value" hdec
  ⟨hdec, h.1, h.2.2.2.1, h.2.2.2.2.2⟩

/-- C9: when the Slack client factory succeeds and the fourth whitespace-separated field of
the event text is a base-10 literal of an integer `n` in the signed 32-bit range,
`EmtecController.EnableAutomation` makes exactly one remote call, `EnableAutomation` with
`TrackId = n`, and `EmtecController.DisableAutomation` makes exactly one remote call,
`DisableAutomation` with `TrackId = n`; on remote success with track name `t` the reply
posted is `EmtecEnabled(t)`, respectively `EmtecDisabled(t)`, followed by the
`SomethingIsWrong` notice only if that post fails. -/
theorem C9_enable_disable_dispatch {Msg : Type} (v : View Msg) (env : Env Msg)
    (sc : SlackClient Msg) (hsc : env.slackFactoryNew = Except.ok sc)
    (ev : AppMentionEvent) (f : String) (n : Int)
    (hf : (Fields ev.Text)[3]? = some f) (hlit : DecimalLiteral f n) (hn : InInt32 n) :
    remoteCalls (EmtecController.EnableAutomation v env ev) = [Effect.EnableAutomation n] ∧
    remoteCalls (EmtecController.DisableAutomation v env ev) = [Effect.DisableAutomation n] ∧
    (∀ t : String, env.EnableAutomation n = Except.ok t →
      posted (EmtecController.EnableAutomation v env ev) =
        v.EmtecEnabled t ::
          (match sc.PostMessage 0 ev.Channel (v.EmtecEnabled t) with
           | none => []
           | some _ => [v.SomethingIsWrong ev.TimeStamp])) ∧
    (∀ t : String, env.DisableAutomation n = Except.ok t →
      posted (EmtecController.DisableAutomation v env ev) =
        v.EmtecDisabled t ::
          (match sc.PostMessage 0 ev.Channel (v.EmtecDisabled t) with
           | none => []
           | some _ => [v.SomethingIsWrong ev.TimeStamp])) := by
  have hlen : (Fields ev.Text).length ≥ 4 := by
    have := (List.getElem?_eq_some_iff.mp hf).1
    omega
  have hA : Atoi f = some n := by
    unfold InInt32 at hn
    exact Atoi_of_literal hlit (by omega) (by omega)
  have h32 := toInt32_of_inInt32 hn
  refine ⟨?_, ?_, ?_, ?_⟩
  · simp only [EmtecController.EnableAutomation, EmtecController.switchAutomation, hsc]
    simp only [hlen, hf, hA, h32, Option.getD_some, List.getD_eq_getElem?_getD]
    repeat' split
    all_goals simp_all [remoteCalls, Effect.isRemote]
  · simp only [EmtecController.DisableAutomation, EmtecController.switchAutomation, hsc]
    simp only [hlen, hf, hA, h32, Option.getD_some, List.getD_eq_getElem?_getD]
    repeat' split
    all_goals simp_all [remoteCalls, Effect.isRemote]
  · intro t ht
    simp only [EmtecController.EnableAutomation, EmtecController.switchAutomation, hsc]
    simp only [hlen, hf, hA, h32, ht, Option.getD_some, List.getD_eq_getElem?_getD]
    cases hp : sc.PostMessage 0 ev.Channel (v.EmtecEnabled t) <;> simp [posted, hp]
  · intro t ht
    simp only [EmtecController.DisableAutomation, EmtecController.switchAutomation, hsc]
    simp only [hlen, hf, hA, h32, ht, Option.getD_some, List.getD_eq_getElem?_getD]
    cases hp : sc.PostMessage 0 ev.Channel (v.EmtecDisabled t) <;> simp [posted, hp]

/-- C9 at the texts `@bot automate enable -12` and `@bot automate disable +0042`. -/
theorem C9_enable_disable_dispatch_witness :
    (remoteCalls (EmtecController.EnableAutomation symView okEnv
        (mention "@bot automate enable -12")) = [Effect.EnableAutomation (-12)] ∧
     posted (EmtecController.EnableAutomation symView okEnv
        (mention "@bot automate enable -12")) = [Rendered.Enabled "Stage A"]) ∧
    (remoteCalls (EmtecController.DisableAutomation symView okEnv
        (mention "@bot automate disable +0042")) = [Effect.DisableAutomation 42] ∧
     posted (EmtecController.DisableAutomation symView okEnv
        (mention "@bot automate disable +0042")) = [Rendered.Disabled "Stage A"]) :=
  have h1 := C9_enable_disable_dispatch symView okEnv okClient rfl
    (mention "@bot automate enable -12") "-12" (-12) (by decide) (Atoi_literal (by decide))
    (by decide)
  have h2 := C9_enable_disable_dispatch symView okEnv okClient rfl
    (mention "@bot automate disable +0042") "+0042" 42 (by decide) (Atoi_literal (by decide))
    (by decide)
  ⟨⟨h1.1, h1.2.2.1 "Stage A" rfl⟩, ⟨h2.2.1, h2.2.2.2 "Stage A" rfl⟩⟩

/-- C10 (the code at the failing input): the factory fails and the callback value `7` is
valid. `UpdateSceneToNext` logs the failure and goes on: it advances the scene of track 7
and then calls `UpdateMessage` through the missing client. -/
theorem C10_scene_advanced_without_client :
    noClientEnv.slackFactoryNew = Except.error "auth failed" ∧
    EmtecController.UpdateSceneToNext symView noClientEnv (click "7") =
      [Effect.SlackNew,
       Effect.LogError "failed to initialize Slack client: auth failed",
       Effect.MoveSceneToNext 7,
       Effect.NilClient] ∧
    remoteCalls (EmtecController.UpdateSceneToNext symView noClientEnv (click "7")) =
      [Effect.MoveSceneToNext 7] ∧
    crashed (EmtecController.UpdateSceneToNext symView noClientEnv (click "7")) = true := by
  refine ⟨rfl, by decide, by decide, by decide⟩

/-- The sibling handlers do stop on a factory failure: `ListTrack` and `switchAutomation`
only log and return. -/
theorem factory_failure_stops_siblings {Msg : Type} (v : View Msg) (env : Env Msg) (err : Err)
    (hsc : env.slackFactoryNew = Except.error err) (ev : AppMentionEvent) (enabled : Bool) :
    EmtecController.ListTrack v env ev =
      [Effect.SlackNew, Effect.LogError ("failed to initialize Slack client: " ++ err)] ∧
    EmtecController.switchAutomation v env ev enabled =
      [Effect.SlackNew, Effect.LogError ("failed to initialize Slack client: " ++ err)] := by
  simp [EmtecController.ListTrack, EmtecController.switchAutomation, hsc]

end Chatbot
